import Mathlib

/-!
Shallow embedding of `http-perftrace` (Go), a concurrent HTTP latency probe.
The repository carries three small variants of the tool:
a fixed-count variant (one request per worker, global 60 s timeout) and two
duration-mode variants (unbounded worker loops, time budget, interrupt
handling, running aggregation).  Instants (`time.Time`) are modelled as `Int`
nanoseconds and `time.Duration` as `Int`; `t1.Sub t0` is integer subtraction.
Go runtime panics (integer division by zero, nil-pointer dereference) are
modelled explicitly as a `panicked` outcome, and the nondeterministic order in
which the controller's `select` observes channel/timer/signal readiness is
modelled as an explicit schedule: a list of events consumed in order.
-/

namespace HttpPerftrace

/-- The ten instants stamped by the `httptrace.ClientTrace` hooks plus the
round-trip bracket stamped by the runner: `traceTimes` in `main.go`, embedded
directly in `result` in the `part_000` variant. -/
structure TraceTimes where
  dnsStart : Int
  dnsDone : Int
  connectStart : Int
  connectDone : Int
  conn : Int
  firstResponseByte : Int
  tlsHandshakeStart : Int
  tlsHandshakeDone : Int
  roundTripStart : Int
  roundTripDone : Int
deriving Repr, DecidableEq

/-- Protocol/status metadata of the `*http.Response` a successful round trip
returns: the two fields the rendering reads (`Proto`, `Status`). -/
structure ResponseMeta where
  proto : String
  status : String
deriving Repr, DecidableEq

/-- Source `(*result).dnsLookup`: `r.dnsDone.Sub(r.dnsStart)`. -/
def TraceTimes.dnsLookup (t : TraceTimes) : Int :=
  t.dnsDone - t.dnsStart

/-- Source `(*result).tcpConnect`: `r.connectDone.Sub(r.connectStart)`. -/
def TraceTimes.tcpConnect (t : TraceTimes) : Int :=
  t.connectDone - t.connectStart

/-- Source `(*result).tlsHandshake`: `r.tlsHandshakeDone.Sub(r.tlsHandshakeStart)`. -/
def TraceTimes.tlsHandshake (t : TraceTimes) : Int :=
  t.tlsHandshakeDone - t.tlsHandshakeStart

/-- Source `(*result).serverProcessing`: `r.firstResponseByte.Sub(r.conn)`. -/
def TraceTimes.serverProcessing (t : TraceTimes) : Int :=
  t.firstResponseByte - t.conn

/-- Source `(*result).roundTrip`: `r.roundTripDone.Sub(r.roundTripStart)`. -/
def TraceTimes.roundTrip (t : TraceTimes) : Int :=
  t.roundTripDone - t.roundTripStart

/-- One rendered per-request line
`<proto> <status> - DNS: _, TCP: _, TLS: _, Server processing: _, Total: _`.
Each timing field is `some d` when the line shows the duration `d`, and
`none` when it shows the literal text n/a instead of a duration. -/
structure RenderedLine where
  proto : String
  status : String
  dns : Option Int
  tcp : Option Int
  tls : Option Int
  server : Option Int
  total : Option Int
deriving Repr, DecidableEq

/-- Source `(*result).String` (`part_000` lines 58-69) and `(*result).summary`
(`main.go`): formats the protocol, the status and the five computed durations
with `%s`; the format string has no alternative branch, so every timing field
is the duration itself. -/
def resultLine (t : TraceTimes) (resp : ResponseMeta) : RenderedLine :=
  { proto := resp.proto
    status := resp.status
    dns := some t.dnsLookup
    tcp := some t.tcpConnect
    tls := some t.tlsHandshake
    server := some t.serverProcessing
    total := some t.roundTrip }

/-- Modelled from the spec: the rendered line shows n/a for the DNS field when
its duration is effectively zero and for the TLS field when no TLS events were
stamped (zero or negative duration); TCP connect and round trip are always
shown.  This definition follows the spec's words and exists only to be
compared with `resultLine`, which is the code's rendering. -/
def specResultLine (t : TraceTimes) (resp : ResponseMeta) : RenderedLine :=
  { proto := resp.proto
    status := resp.status
    dns := if t.dnsLookup = 0 then none else some t.dnsLookup
    tcp := some t.tcpConnect
    tls := if t.tlsHandshake ≤ 0 then none else some t.tlsHandshake
    server := some t.serverProcessing
    total := some t.roundTrip }

/-- Source `average(list []time.Duration)`: folds the list into `total` and
returns `total / time.Duration(len(list))`.  Go's `int64` division truncates
toward zero (`Int.tdiv`) and panics when the divisor is zero; the panic on an
empty list is modelled as `none`. -/
def average (list : List Int) : Option Int :=
  let total := list.foldl (fun acc r => acc + r) 0
  if list.length = 0 then none else some (Int.tdiv total (list.length : Int))

/-- Modelled from the spec: the arithmetic mean of a series, the sum of the
recorded durations divided by their count (durations are integer nanoseconds,
so the division is the truncating one the code performs). -/
def specMean (l : List Int) : Int :=
  Int.tdiv l.sum (l.length : Int)

/-- Source `resultSummary`: one ordered series of observed durations per
phase.  The `main.go` duration variant stores `[]*time.Duration` and
`part_000` stores `[]time.Duration`; both append one value per loaded result
and only ever read the pointees, so a list of values models both. -/
structure ResultSummary where
  dnsLookups : List Int
  tcpConnects : List Int
  tlsHandshakes : List Int
  serverProcessing : List Int
  roundTrips : List Int
deriving Repr, DecidableEq

/-- Go's `&resultSummary{}` zero value: five empty series. -/
def emptySummary : ResultSummary :=
  { dnsLookups := []
    tcpConnects := []
    tlsHandshakes := []
    serverProcessing := []
    roundTrips := [] }

/-- Source `(*resultSummary).load`: appends each of the result's five
durations to the corresponding per-phase series. -/
def ResultSummary.load (s : ResultSummary) (t : TraceTimes) : ResultSummary :=
  { dnsLookups := s.dnsLookups ++ [t.dnsLookup]
    tcpConnects := s.tcpConnects ++ [t.tcpConnect]
    tlsHandshakes := s.tlsHandshakes ++ [t.tlsHandshake]
    serverProcessing := s.serverProcessing ++ [t.serverProcessing]
    roundTrips := s.roundTrips ++ [t.roundTrip] }

/-- The five `Average <phase>: <d>` values of the final report, in source
order: DNS lookup, TCP connect, TLS handshake, server processing, round trip. -/
structure SummaryReport where
  avgDns : Int
  avgTcp : Int
  avgTls : Int
  avgServer : Int
  avgRoundTrip : Int
deriving Repr, DecidableEq

/-- Source `(*resultSummary).String`: renders the five per-phase averages in
order.  Each `average` call divides by the series length, so with any empty
series the method panics on the division by zero before producing the report:
modelled as `none`.  The method is only ever invoked through a fmt print
routine, which recovers such a panic (see `summaryPrinted`). -/
def ResultSummary.render (s : ResultSummary) : Option SummaryReport := do
  let d ← average s.dnsLookups
  let tc ← average s.tcpConnects
  let tl ← average s.tlsHandshakes
  let sp ← average s.serverProcessing
  let rt ← average s.roundTrips
  pure ⟨d, tc, tl, sp, rt⟩

/-- Source `run` argument validation (identical in every variant): the only
checks performed before any worker starts are `url == ""` and
`concurrency < 1`; the returned value is the `errors.New` message, `none`
meaning validation passed and the run proceeds. -/
def validateConfig (url : String) (concurrency : Int) : Option String :=
  if url = "" then some "-u not provided"
  else if concurrency < 1 then some "-c should be greater or equal to 1"
  else none

/-- Whether the first list is an initial segment of the second. -/
def leadsWith : List Char → List Char → Bool
  | [], _ => true
  | _ :: _, [] => false
  | c :: cs, d :: ds => (c = d) && leadsWith cs ds

/-- Modelled from the spec: a well-formed absolute HTTP/HTTPS request target,
which the spec says is the only input that passes validation.  Used only to
compare the spec's validation demand with `validateConfig`. -/
def specIsAbsoluteHttpUrl (url : String) : Bool :=
  leadsWith "http://".data url.data || leadsWith "https://".data url.data

/-- Process-wide Go runtime configuration, threaded explicitly so that the
side effects of run setup are visible.  `gomaxprocs` is the scheduler's
worker-thread bound; `otherSettings` stands for every other process-wide
runtime setting, which the code never touches. -/
structure GlobalRuntime where
  gomaxprocs : Int
  otherSettings : Int
deriving Repr, DecidableEq

/-- Source `run` setup (every variant): before launching workers the code
calls `runtime.GOMAXPROCS(concurrency)`, mutating the process-wide scheduler
configuration.  The rest of the setup state (the channels, the timer, the
summary) is local to the run and does not appear in the global state. -/
def runSetupGlobals (concurrency : Int) (g : GlobalRuntime) : GlobalRuntime :=
  { g with gomaxprocs := concurrency }

/-- One event the duration-mode controller's `select` can observe: the time
budget firing, an interrupt signal, a successful result published by a worker,
or an error published by a worker.  A schedule is the list of events in the
order the `select` observes them. -/
inductive RunEvent where
  | done : RunEvent
  | interrupt : RunEvent
  | result (t : TraceTimes) (resp : ResponseMeta) : RunEvent
  | err (e : String) : RunEvent
deriving Repr, DecidableEq

/-- Everything `run` writes to stdout after setup: a per-request line, the
`Test ended. <n> requests made` line, the block of five averages, or the
diagnostic fmt prints in place of a value whose `String` method panicked
(`%!v(PANIC=String method: runtime error: integer divide by zero)`) — fmt's
print routines recover a panic raised inside a `String` method and continue. -/
inductive OutputItem where
  | line (l : RenderedLine) : OutputItem
  | countLine (n : Nat) : OutputItem
  | summaryBlock (rep : SummaryReport) : OutputItem
  | panicDiagnostic : OutputItem
deriving Repr, DecidableEq

/-- How `run` ends: `ok` is a `nil` return, `failed e` is a returned error
with message `e` (a propagated worker error, or the interrupt error), and
`panicked` is an unrecovered Go runtime panic that aborts the process — the
nil response dereference in the fixed-count variant, which occurs while
evaluating `result.summary()` as an argument, outside any fmt print routine,
so nothing recovers it.  (A panic inside a `String` method called by fmt is
recovered by fmt and never produces this outcome.) -/
inductive RunOutcome where
  | ok : RunOutcome
  | failed (e : String) : RunOutcome
  | panicked : RunOutcome
deriving Repr, DecidableEq

/-- The error message `run` returns on the interrupt path. -/
def interruptErrMsg : String := "interrupt signal received"

/-- Source `main` (every variant): a non-nil error from `run` is printed to
stderr and the process exits with `exitFail = 1`; a nil error exits 0.  A
runtime panic never reaches this mapping (Go aborts the process), hence
`none`. -/
def exitCode : RunOutcome → Option Nat
  | RunOutcome.ok => some 0
  | RunOutcome.failed _ => some 1
  | RunOutcome.panicked => none

/-- What `fmt.Fprintln(stdout, summary)` writes: the summary is a
`fmt.Stringer`, so its `String` method runs inside the fmt print routine; the
averages block when the method returns, and the recovered-panic diagnostic
when it panics on an empty series (fmt catches a panic raised by a `String`
method, reformats it, and the program continues). -/
def summaryPrinted (s : ResultSummary) : OutputItem :=
  match s.render with
  | some rep => OutputItem.summaryBlock rep
  | none => OutputItem.panicDiagnostic

/-- Source duration-mode event loop (`part_000` lines 157-176 and the second
`main.go` variant): on the budget firing or an interrupt it prints the count
line and then `fmt.Fprintln(stdout, summary)` (whose `String`-method panic on
an empty summary is recovered by fmt, so the branch still returns `nil`
resp. the interrupt error), on a result it loads the summary and prints the
per-request line, and on a worker error it returns that error at once,
printing nothing further.  `none` means the schedule ended with the loop
still blocked in `select`. -/
def runLoop : List RunEvent → ResultSummary → List OutputItem →
    Option (RunOutcome × List OutputItem)
  | [], _, _ => none
  | RunEvent.done :: _, s, out =>
    some (RunOutcome.ok,
      out ++ [OutputItem.countLine s.roundTrips.length, summaryPrinted s])
  | RunEvent.interrupt :: _, s, out =>
    some (RunOutcome.failed interruptErrMsg,
      out ++ [OutputItem.countLine s.roundTrips.length, summaryPrinted s])
  | RunEvent.result t resp :: rest, s, out =>
    runLoop rest (s.load t) (out ++ [OutputItem.line (resultLine t resp)])
  | RunEvent.err e :: _, _, out => some (RunOutcome.failed e, out)

/-- A successful result arriving on the results channel. -/
def resultEvent (p : TraceTimes × ResponseMeta) : RunEvent :=
  RunEvent.result p.1 p.2

/-- The per-request line the controller prints for a received result. -/
def lineOf (p : TraceTimes × ResponseMeta) : OutputItem :=
  OutputItem.line (resultLine p.1 p.2)

/-- Loading a sequence of received results into the aggregator in order. -/
def loadAll (s : ResultSummary) (rs : List (TraceTimes × ResponseMeta)) : ResultSummary :=
  rs.foldl (fun acc p => acc.load p.1) s

/-- Source fixed-count variant (`main.go` first part): the `result` struct
holds the response pointer (`none` is Go's nil) and the five durations
computed by `(*result).load`. -/
structure GoResult where
  response : Option ResponseMeta
  dnsLookup : Int
  tcpConnect : Int
  tlsHandshake : Int
  serverProcessing : Int
  roundTrip : Int
deriving Repr, DecidableEq

/-- Source `(*result).load` (`main.go` lines 63-69): derives the five
durations from the trace times by subtraction. -/
def GoResult.load (resp : Option ResponseMeta) (t : TraceTimes) : GoResult :=
  { response := resp
    dnsLookup := t.dnsDone - t.dnsStart
    tcpConnect := t.connectDone - t.connectStart
    tlsHandshake := t.tlsHandshakeDone - t.tlsHandshakeStart
    serverProcessing := t.firstResponseByte - t.conn
    roundTrip := t.roundTripDone - t.roundTripStart }

/-- Source `(*result).summary` (`main.go` lines 50-61): formats
`r.response.Proto` and `r.response.Status` with the five durations.  When
`response` is nil the field access is a nil-pointer dereference: a Go runtime
panic, modelled as `none`. -/
def GoResult.summaryLine (r : GoResult) : Option RenderedLine :=
  match r.response with
  | none => none
  | some resp =>
    some { proto := resp.proto
           status := resp.status
           dns := some r.dnsLookup
           tcp := some r.tcpConnect
           tls := some r.tlsHandshake
           server := some r.serverProcessing
           total := some r.roundTrip }

/-- Source fixed-count worker (`main.go` lines 89-95): performs one request,
ignores `runTest`'s error, and sends the result regardless.  On success
(`some (t, resp)`) the result was loaded from the trace times; on a transport
error (`none`) `runTest` returned before touching the result, so the worker
sends the zero-value `result` whose response is nil. -/
def fixedWorker (attempt : Option (TraceTimes × ResponseMeta)) : GoResult :=
  match attempt with
  | some (t, resp) => GoResult.load (some resp) t
  | none =>
    { response := none
      dnsLookup := 0
      tcpConnect := 0
      tlsHandshake := 0
      serverProcessing := 0
      roundTrip := 0 }

/-- Source fixed-count timeout bound (`main.go` line 18): `timeoutSeconds = 60`. -/
def timeoutSeconds : Nat := 60

/-- The error the fixed-count `run` returns when the global timeout fires:
`fmt.Errorf("timed out after %d seconds", timeoutSeconds)`. -/
def timeoutErrMsg : String := s!"timed out after {timeoutSeconds} seconds"

/-- One event the fixed-count controller's `select` can observe: a result
from the results channel or the 60-second timer firing. -/
inductive FixedEvent where
  | result (r : GoResult) : FixedEvent
  | timeout : FixedEvent
deriving Repr, DecidableEq

/-- Source fixed-count receive loop (`main.go` lines 99-108): iterates
`concurrency` times, each iteration selecting between a received result
(printed via `summary()`, which panics on a nil response) and the global
timeout (returning the timeout error).  Returns `nil` once all iterations
received a result.  `none` means the schedule ended with the loop still
blocked in `select`. -/
def fixedRun : Nat → List FixedEvent → List OutputItem →
    Option (RunOutcome × List OutputItem)
  | 0, _, out => some (RunOutcome.ok, out)
  | Nat.succ _, [], _ => none
  | Nat.succ n, FixedEvent.result r :: rest, out =>
    match r.summaryLine with
    | none => some (RunOutcome.panicked, out)
    | some l => fixedRun n rest (out ++ [OutputItem.line l])
  | Nat.succ _, FixedEvent.timeout :: _, out =>
    some (RunOutcome.failed timeoutErrMsg, out)

/-- An event carrying a successfully completed request in fixed-count mode. -/
def fixedSuccessEvent (p : TraceTimes × ResponseMeta) : FixedEvent :=
  FixedEvent.result (fixedWorker (some p))

/-- The line the fixed-count controller prints for a successful result. -/
def fixedLineOf (p : TraceTimes × ResponseMeta) : OutputItem :=
  OutputItem.line { proto := p.2.proto
                    status := p.2.status
                    dns := some (p.1.dnsDone - p.1.dnsStart)
                    tcp := some (p.1.connectDone - p.1.connectStart)
                    tls := some (p.1.tlsHandshakeDone - p.1.tlsHandshakeStart)
                    server := some (p.1.firstResponseByte - p.1.conn)
                    total := some (p.1.roundTripDone - p.1.roundTripStart) }

lemma foldl_add_eq (l : List Int) (a : Int) :
    l.foldl (fun acc r => acc + r) a = a + l.sum := by
  induction l generalizing a with
  | nil => simp
  | cons x xs ih => simp [List.foldl_cons, ih, List.sum_cons]; ring

lemma average_nil : average [] = none := rfl

lemma average_eq_specMean (l : List Int) (h : l ≠ []) :
    average l = some (specMean l) := by
  have hlen : l.length ≠ 0 := by
    cases l with
    | nil => exact absurd rfl h
    | cons x xs => simp
  simp [average, specMean, foldl_add_eq, hlen]

lemma loadAll_cons (s : ResultSummary) (p : TraceTimes × ResponseMeta)
    (rs : List (TraceTimes × ResponseMeta)) :
    loadAll s (p :: rs) = loadAll (s.load p.1) rs := rfl

lemma loadAll_lengths (rs : List (TraceTimes × ResponseMeta)) (s : ResultSummary) :
    (loadAll s rs).dnsLookups.length = s.dnsLookups.length + rs.length ∧
    (loadAll s rs).tcpConnects.length = s.tcpConnects.length + rs.length ∧
    (loadAll s rs).tlsHandshakes.length = s.tlsHandshakes.length + rs.length ∧
    (loadAll s rs).serverProcessing.length = s.serverProcessing.length + rs.length ∧
    (loadAll s rs).roundTrips.length = s.roundTrips.length + rs.length := by
  induction rs generalizing s with
  | nil => simp [loadAll]
  | cons p rest ih =>
    obtain ⟨h1, h2, h3, h4, h5⟩ := ih (s.load p.1)
    rw [loadAll_cons, h1, h2, h3, h4, h5]
    simp [ResultSummary.load]
    omega

lemma ne_nil_of_length_pos {α : Type} {l : List α} (h : 0 < l.length) : l ≠ [] := by
  cases l with
  | nil => simp at h
  | cons x xs => simp

lemma render_loadAll_eq (rs : List (TraceTimes × ResponseMeta)) (h : rs ≠ []) :
    (loadAll emptySummary rs).render =
      some ⟨specMean (loadAll emptySummary rs).dnsLookups,
            specMean (loadAll emptySummary rs).tcpConnects,
            specMean (loadAll emptySummary rs).tlsHandshakes,
            specMean (loadAll emptySummary rs).serverProcessing,
            specMean (loadAll emptySummary rs).roundTrips⟩ := by
  obtain ⟨h1, h2, h3, h4, h5⟩ := loadAll_lengths rs emptySummary
  simp only [emptySummary, List.length_nil, Nat.zero_add] at h1 h2 h3 h4 h5
  have hpos : 0 < rs.length := List.length_pos.mpr h
  have e1 := average_eq_specMean (loadAll emptySummary rs).dnsLookups
    (ne_nil_of_length_pos (h1 ▸ hpos))
  have e2 := average_eq_specMean (loadAll emptySummary rs).tcpConnects
    (ne_nil_of_length_pos (h2 ▸ hpos))
  have e3 := average_eq_specMean (loadAll emptySummary rs).tlsHandshakes
    (ne_nil_of_length_pos (h3 ▸ hpos))
  have e4 := average_eq_specMean (loadAll emptySummary rs).serverProcessing
    (ne_nil_of_length_pos (h4 ▸ hpos))
  have e5 := average_eq_specMean (loadAll emptySummary rs).roundTrips
    (ne_nil_of_length_pos (h5 ▸ hpos))
  simp [ResultSummary.render, e1, e2, e3, e4, e5]

lemma runLoop_results_shift (rs : List (TraceTimes × ResponseMeta))
    (evs : List RunEvent) (s : ResultSummary) (out : List OutputItem) :
    runLoop (rs.map resultEvent ++ evs) s out =
      runLoop evs (loadAll s rs) (out ++ rs.map lineOf) := by
  induction rs generalizing s out with
  | nil => simp [loadAll]
  | cons p rest ih =>
    simp only [List.map_cons, List.cons_append, resultEvent, runLoop, loadAll_cons,
      List.append_eq]
    rw [ih]
    simp [lineOf]

lemma summaryLine_fixedWorker_some (p : TraceTimes × ResponseMeta) :
    (fixedWorker (some p)).summaryLine =
      some { proto := p.2.proto
             status := p.2.status
             dns := some (p.1.dnsDone - p.1.dnsStart)
             tcp := some (p.1.connectDone - p.1.connectStart)
             tls := some (p.1.tlsHandshakeDone - p.1.tlsHandshakeStart)
             server := some (p.1.firstResponseByte - p.1.conn)
             total := some (p.1.roundTripDone - p.1.roundTripStart) } := rfl

lemma fixedRun_success_shift (ps : List (TraceTimes × ResponseMeta))
    (n : Nat) (evs : List FixedEvent) (out : List OutputItem) :
    fixedRun (ps.length + n) (ps.map fixedSuccessEvent ++ evs) out =
      fixedRun n evs (out ++ ps.map fixedLineOf) := by
  induction ps generalizing out with
  | nil => simp
  | cons p rest ih =>
    have hl : (p :: rest).length + n = Nat.succ (rest.length + n) := by
      simp [List.length_cons]; omega
    rw [hl]
    simp only [List.map_cons, List.cons_append, fixedSuccessEvent, fixedRun,
      summaryLine_fixedWorker_some, List.append_eq]
    rw [ih]
    simp [fixedLineOf]

/-- C5: for every trace-timestamp record, the server-processing duration is
`firstResponseByte` minus `conn` (the connection-established instant), in both
the method variant and the `load` variant; and whenever the two candidate
anchors differ, it is not `firstResponseByte` minus `roundTripStart`. -/
theorem c5_serverProcessing_anchor (t : TraceTimes) (resp : Option ResponseMeta) :
    t.serverProcessing = t.firstResponseByte - t.conn ∧
    (GoResult.load resp t).serverProcessing = t.firstResponseByte - t.conn ∧
    (t.conn ≠ t.roundTripStart →
      t.serverProcessing ≠ t.firstResponseByte - t.roundTripStart) := by
  refine ⟨rfl, rfl, ?_⟩
  intro hne heq
  apply hne
  have h : t.firstResponseByte - t.conn = t.firstResponseByte - t.roundTripStart := heq
  omega

/-- Witness for c5_serverProcessing_anchor at a concrete timestamp record
whose connection-established instant differs from its round-trip start. -/
theorem c5_serverProcessing_anchor_witness :
    TraceTimes.serverProcessing ⟨0, 1, 2, 3, 10, 30, 4, 5, 0, 40⟩ = 30 - 10 ∧
    TraceTimes.serverProcessing ⟨0, 1, 2, 3, 10, 30, 4, 5, 0, 40⟩ ≠ 30 - 0 := by
  have h := c5_serverProcessing_anchor ⟨0, 1, 2, 3, 10, 30, 4, 5, 0, 40⟩ none
  exact ⟨h.1, h.2.2 (by decide)⟩

/-- C10: starting from the empty summary, after loading any sequence of
results every one of the five per-phase series has length equal to the number
of results loaded; in particular the request count the controller renders
(the length of `roundTrips`) equals the entry count of every series. -/
theorem c10_series_lengths_equal (rs : List (TraceTimes × ResponseMeta)) :
    (loadAll emptySummary rs).dnsLookups.length = rs.length ∧
    (loadAll emptySummary rs).tcpConnects.length = rs.length ∧
    (loadAll emptySummary rs).tlsHandshakes.length = rs.length ∧
    (loadAll emptySummary rs).serverProcessing.length = rs.length ∧
    (loadAll emptySummary rs).roundTrips.length = rs.length := by
  obtain ⟨h1, h2, h3, h4, h5⟩ := loadAll_lengths rs emptySummary
  simp only [emptySummary, List.length_nil, Nat.zero_add] at h1 h2 h3 h4 h5
  exact ⟨h1, h2, h3, h4, h5⟩

/-- C6: for every non-empty sequence of loaded results, `average` on each
per-phase series equals the arithmetic mean of that series: its sum divided
by its count. -/
theorem c6_average_is_mean (rs : List (TraceTimes × ResponseMeta)) (h : rs ≠ []) :
    average (loadAll emptySummary rs).dnsLookups =
      some (specMean (loadAll emptySummary rs).dnsLookups) ∧
    average (loadAll emptySummary rs).tcpConnects =
      some (specMean (loadAll emptySummary rs).tcpConnects) ∧
    average (loadAll emptySummary rs).tlsHandshakes =
      some (specMean (loadAll emptySummary rs).tlsHandshakes) ∧
    average (loadAll emptySummary rs).serverProcessing =
      some (specMean (loadAll emptySummary rs).serverProcessing) ∧
    average (loadAll emptySummary rs).roundTrips =
      some (specMean (loadAll emptySummary rs).roundTrips) := by
  obtain ⟨h1, h2, h3, h4, h5⟩ := loadAll_lengths rs emptySummary
  simp only [emptySummary, List.length_nil, Nat.zero_add] at h1 h2 h3 h4 h5
  have hpos : 0 < rs.length := List.length_pos.mpr h
  exact ⟨average_eq_specMean _ (ne_nil_of_length_pos (h1 ▸ hpos)),
    average_eq_specMean _ (ne_nil_of_length_pos (h2 ▸ hpos)),
    average_eq_specMean _ (ne_nil_of_length_pos (h3 ▸ hpos)),
    average_eq_specMean _ (ne_nil_of_length_pos (h4 ▸ hpos)),
    average_eq_specMean _ (ne_nil_of_length_pos (h5 ▸ hpos))⟩

/-- Witness for c6_average_is_mean on a two-result sequence. -/
theorem c6_average_is_mean_witness :
    average (loadAll emptySummary
        [(⟨0, 1, 2, 3, 10, 30, 4, 5, 0, 40⟩, ⟨"HTTP/2.0", "200 OK"⟩),
         (⟨0, 3, 2, 5, 12, 30, 4, 9, 0, 44⟩, ⟨"HTTP/2.0", "200 OK"⟩)]).dnsLookups =
      some (specMean (loadAll emptySummary
        [(⟨0, 1, 2, 3, 10, 30, 4, 5, 0, 40⟩, ⟨"HTTP/2.0", "200 OK"⟩),
         (⟨0, 3, 2, 5, 12, 30, 4, 9, 0, 44⟩, ⟨"HTTP/2.0", "200 OK"⟩)]).dnsLookups) ∧
    average (loadAll emptySummary
        [(⟨0, 1, 2, 3, 10, 30, 4, 5, 0, 40⟩, ⟨"HTTP/2.0", "200 OK"⟩),
         (⟨0, 3, 2, 5, 12, 30, 4, 9, 0, 44⟩, ⟨"HTTP/2.0", "200 OK"⟩)]).roundTrips =
      some 42 := by
  have h := c6_average_is_mean
    [(⟨0, 1, 2, 3, 10, 30, 4, 5, 0, 40⟩, ⟨"HTTP/2.0", "200 OK"⟩),
     (⟨0, 3, 2, 5, 12, 30, 4, 9, 0, 44⟩, ⟨"HTTP/2.0", "200 OK"⟩)] (by simp)
  refine ⟨h.1, ?_⟩
  rw [h.2.2.2.2]
  rfl

/-- C1 counterexample: at a concrete result whose DNS duration is zero
(`dnsDone = dnsStart`) and whose TLS duration is zero (no distinct TLS events
stamped), the rendered per-request line shows the zero durations themselves
(`some 0`), not the n/a the claim and `specResultLine` demand (`none`). -/
theorem c1_counterexample :
    TraceTimes.dnsLookup ⟨5, 5, 0, 1, 2, 3, 7, 7, 0, 4⟩ = 0 ∧
    TraceTimes.tlsHandshake ⟨5, 5, 0, 1, 2, 3, 7, 7, 0, 4⟩ = 0 ∧
    (resultLine ⟨5, 5, 0, 1, 2, 3, 7, 7, 0, 4⟩ ⟨"HTTP/1.1", "200 OK"⟩).dns = some 0 ∧
    (resultLine ⟨5, 5, 0, 1, 2, 3, 7, 7, 0, 4⟩ ⟨"HTTP/1.1", "200 OK"⟩).tls = some 0 ∧
    (specResultLine ⟨5, 5, 0, 1, 2, 3, 7, 7, 0, 4⟩ ⟨"HTTP/1.1", "200 OK"⟩).dns = none ∧
    (specResultLine ⟨5, 5, 0, 1, 2, 3, 7, 7, 0, 4⟩ ⟨"HTTP/1.1", "200 OK"⟩).tls = none := by
  refine ⟨rfl, rfl, rfl, rfl, ?_, ?_⟩ <;> decide

/-- C1 amended: the per-request rendered line always shows the computed
duration in every field — a zero DNS duration renders as the duration 0 and a
zero-or-negative TLS duration renders as that duration; no field is ever the
literal n/a. -/
theorem c1_line_shows_raw_durations (t : TraceTimes) (resp : ResponseMeta) :
    (t.dnsLookup = 0 → (resultLine t resp).dns = some 0) ∧
    (t.tlsHandshake ≤ 0 → (resultLine t resp).tls = some t.tlsHandshake) ∧
    (resultLine t resp).dns ≠ none ∧
    (resultLine t resp).tls ≠ none := by
  refine ⟨fun h => ?_, fun _ => rfl, ?_, ?_⟩
  · simp [resultLine, h]
  · simp [resultLine]
  · simp [resultLine]

/-- Witness for c1_line_shows_raw_durations at a record with zero DNS and
zero TLS durations. -/
theorem c1_line_shows_raw_durations_witness :
    (resultLine ⟨5, 5, 0, 1, 2, 3, 7, 7, 0, 4⟩ ⟨"HTTP/1.1", "200 OK"⟩).dns = some 0 ∧
    (resultLine ⟨5, 5, 0, 1, 2, 3, 7, 7, 0, 4⟩ ⟨"HTTP/1.1", "200 OK"⟩).tls =
      some (TraceTimes.tlsHandshake ⟨5, 5, 0, 1, 2, 3, 7, 7, 0, 4⟩) ∧
    (resultLine ⟨5, 5, 0, 1, 2, 3, 7, 7, 0, 4⟩ ⟨"HTTP/1.1", "200 OK"⟩).dns ≠ none := by
  have h := c1_line_shows_raw_durations ⟨5, 5, 0, 1, 2, 3, 7, 7, 0, 4⟩ ⟨"HTTP/1.1", "200 OK"⟩
  exact ⟨h.1 (by decide), h.2.1 (by decide), h.2.2.1⟩

/-- C3 counterexample: the non-empty string notaurl is not an absolute
HTTP/HTTPS request target, yet the pre-worker validation accepts it
(`validateConfig` returns no error), contradicting the claim that only
well-formed absolute HTTP/HTTPS URLs pass validation before workers start. -/
theorem c3_counterexample :
    validateConfig "notaurl" 1 = none ∧
    specIsAbsoluteHttpUrl "notaurl" = false := by
  constructor
  · rfl
  · decide

/-- C3 amended: the only URL check performed before any worker starts is
non-emptiness — validation passes exactly when the URL is non-empty and the
concurrency is at least 1; a non-empty URL that is not an absolute HTTP/HTTPS
target is not rejected by this validation (its failure surfaces later, inside
a worker, as a request/transport error). -/
theorem c3_validation_is_nonempty_check (url : String) (c : Int) :
    validateConfig url c = none ↔ (url ≠ "" ∧ 1 ≤ c) := by
  simp only [validateConfig]
  split_ifs with h1 h2
  · simp [h1]
  · simp [h1]; omega
  · simp [h1]; omega

/-- C8 counterexample: starting a run with concurrency 2 from a global
runtime state with `gomaxprocs = 1` changes that process-wide scheduler
setting to 2 — run setup does mutate process-wide scheduler configuration. -/
theorem c8_counterexample :
    runSetupGlobals 2 ⟨1, 0⟩ ≠ ⟨1, 0⟩ ∧
    (runSetupGlobals 2 ⟨1, 0⟩).gomaxprocs = 2 := by
  constructor
  · decide
  · rfl

/-- C8 amended: run setup mutates exactly one process-wide setting — it sets
the scheduler's GOMAXPROCS to the configured concurrency before workers
start — and leaves every other process-wide runtime setting unchanged; the
rest of the setup state (channels, timers, the summary) is run-local. -/
theorem c8_setup_sets_gomaxprocs (c : Int) (g : GlobalRuntime) :
    (runSetupGlobals c g).gomaxprocs = c ∧
    (runSetupGlobals c g).otherSettings = g.otherSettings :=
  ⟨rfl, rfl⟩

/-- C2 (code bug): `average` is undefined on an empty series, yet the
controller's termination paths render the summary unconditionally — a run
that terminates with zero completed results (here: the time budget fires
before any result) does evaluate `average` on the five empty series, and the
division by zero panics inside the `String` method; fmt's print routine
recovers that panic and prints the panic diagnostic in place of the averages,
and the run still returns `nil` (exit 0) with its report garbled. -/
theorem c2_average_called_on_empty :
    average [] = none ∧
    emptySummary.render = none ∧
    runLoop [RunEvent.done] emptySummary [] =
      some (RunOutcome.ok, [OutputItem.countLine 0, OutputItem.panicDiagnostic]) ∧
    exitCode RunOutcome.ok = some 0 := by
  exact ⟨rfl, rfl, rfl, rfl⟩

/-- C4: in the duration-based mode, for every schedule in which a worker
error is observed before the time budget and before any interrupt (any run of
successful results followed by the error), the controller returns that error
as the run's outcome (non-zero exit), prints only the per-request lines seen
so far (no count line, no summary block), and consumes none of the remaining
scheduled events. -/
theorem c4_fail_fast_on_error (rs : List (TraceTimes × ResponseMeta)) (e : String)
    (rest : List RunEvent) :
    runLoop (rs.map resultEvent ++ (RunEvent.err e :: rest)) emptySummary [] =
      some (RunOutcome.failed e, rs.map lineOf) ∧
    exitCode (RunOutcome.failed e) = some 1 := by
  constructor
  · rw [runLoop_results_shift]
    simp [runLoop]
  · rfl

/-- C7 counterexample: an interrupt observed with zero results collected does
exit non-zero, but it does not print the summary accumulated so far as the
claim states — rendering the averages divides by zero inside the `String`
method, fmt recovers the panic, and what is printed after the zero-count line
is the panic diagnostic: no summary block appears in the output. -/
theorem c7_counterexample :
    runLoop [RunEvent.interrupt] emptySummary [] =
      some (RunOutcome.failed interruptErrMsg,
        [OutputItem.countLine 0, OutputItem.panicDiagnostic]) ∧
    (∀ rep, OutputItem.summaryBlock rep ∉
      [OutputItem.countLine 0, OutputItem.panicDiagnostic]) ∧
    exitCode (RunOutcome.failed interruptErrMsg) = some 1 := by
  refine ⟨rfl, ?_, rfl⟩
  intro rep h
  simp at h

/-- C7 amended: an interrupt observed mid-run ends the run with the
interrupted error (non-zero exit) and time-budget expiry with a nil return
(zero exit); after at least one result has been collected either path prints
the accumulated summary, while with zero collected results the summary
rendering panics on a division by zero, fmt recovers it, and the panic
diagnostic is printed in place of the averages — the exit codes unchanged. -/
theorem c7_interrupt_nonzero_budget_zero (rs : List (TraceTimes × ResponseMeta))
    (h : rs ≠ []) (rest : List RunEvent) :
    (∃ rep, runLoop (rs.map resultEvent ++ (RunEvent.interrupt :: rest)) emptySummary [] =
      some (RunOutcome.failed interruptErrMsg,
        rs.map lineOf ++ [OutputItem.countLine rs.length, OutputItem.summaryBlock rep])) ∧
    exitCode (RunOutcome.failed interruptErrMsg) = some 1 ∧
    (∃ rep, runLoop (rs.map resultEvent ++ (RunEvent.done :: rest)) emptySummary [] =
      some (RunOutcome.ok,
        rs.map lineOf ++ [OutputItem.countLine rs.length, OutputItem.summaryBlock rep])) ∧
    exitCode RunOutcome.ok = some 0 ∧
    runLoop [RunEvent.interrupt] emptySummary [] =
      some (RunOutcome.failed interruptErrMsg,
        [OutputItem.countLine 0, OutputItem.panicDiagnostic]) ∧
    runLoop [RunEvent.done] emptySummary [] =
      some (RunOutcome.ok, [OutputItem.countLine 0, OutputItem.panicDiagnostic]) := by
  have hrender := render_loadAll_eq rs h
  have hlen : (loadAll emptySummary rs).roundTrips.length = rs.length := by
    obtain ⟨_, _, _, _, h5⟩ := loadAll_lengths rs emptySummary
    simpa [emptySummary] using h5
  refine ⟨⟨⟨specMean (loadAll emptySummary rs).dnsLookups,
      specMean (loadAll emptySummary rs).tcpConnects,
      specMean (loadAll emptySummary rs).tlsHandshakes,
      specMean (loadAll emptySummary rs).serverProcessing,
      specMean (loadAll emptySummary rs).roundTrips⟩, ?_⟩, rfl,
    ⟨⟨specMean (loadAll emptySummary rs).dnsLookups,
      specMean (loadAll emptySummary rs).tcpConnects,
      specMean (loadAll emptySummary rs).tlsHandshakes,
      specMean (loadAll emptySummary rs).serverProcessing,
      specMean (loadAll emptySummary rs).roundTrips⟩, ?_⟩, rfl, rfl, rfl⟩
  · rw [runLoop_results_shift]
    simp [runLoop, summaryPrinted, hrender, hlen]
  · rw [runLoop_results_shift]
    simp [runLoop, summaryPrinted, hrender, hlen]

/-- Witness for c7_interrupt_nonzero_budget_zero on a one-result schedule. -/
theorem c7_interrupt_nonzero_budget_zero_witness :
    (∃ rep, runLoop ([(⟨0, 1, 2, 3, 10, 30, 4, 5, 0, 40⟩,
        (⟨"HTTP/2.0", "200 OK"⟩ : ResponseMeta))].map resultEvent ++
          (RunEvent.interrupt :: [])) emptySummary [] =
      some (RunOutcome.failed interruptErrMsg,
        [(⟨0, 1, 2, 3, 10, 30, 4, 5, 0, 40⟩,
          (⟨"HTTP/2.0", "200 OK"⟩ : ResponseMeta))].map lineOf ++
          [OutputItem.countLine 1, OutputItem.summaryBlock rep])) ∧
    exitCode (RunOutcome.failed interruptErrMsg) = some 1 ∧
    (∃ rep, runLoop ([(⟨0, 1, 2, 3, 10, 30, 4, 5, 0, 40⟩,
        (⟨"HTTP/2.0", "200 OK"⟩ : ResponseMeta))].map resultEvent ++
          (RunEvent.done :: [])) emptySummary [] =
      some (RunOutcome.ok,
        [(⟨0, 1, 2, 3, 10, 30, 4, 5, 0, 40⟩,
          (⟨"HTTP/2.0", "200 OK"⟩ : ResponseMeta))].map lineOf ++
          [OutputItem.countLine 1, OutputItem.summaryBlock rep])) ∧
    exitCode RunOutcome.ok = some 0 ∧
    runLoop [RunEvent.interrupt] emptySummary [] =
      some (RunOutcome.failed interruptErrMsg,
        [OutputItem.countLine 0, OutputItem.panicDiagnostic]) ∧
    runLoop [RunEvent.done] emptySummary [] =
      some (RunOutcome.ok, [OutputItem.countLine 0, OutputItem.panicDiagnostic]) :=
  c7_interrupt_nonzero_budget_zero
    [(⟨0, 1, 2, 3, 10, 30, 4, 5, 0, 40⟩, ⟨"HTTP/2.0", "200 OK"⟩)] (by simp) []

/-- C9 counterexample: in fixed-count mode with concurrency 1, when the one
worker's request errors the worker still sends its zero-value result (nil
response), so the controller does receive exactly N results — but printing
that result dereferences the nil response and the run panics instead of
returning success, refuting the claim that the controller returns success
after receiving exactly N results. -/
theorem c9_counterexample :
    (fixedWorker none).response = none ∧
    fixedRun 1 [FixedEvent.result (fixedWorker none)] [] =
      some (RunOutcome.panicked, []) ∧
    ∀ out, fixedRun 1 [FixedEvent.result (fixedWorker none)] [] ≠
      some (RunOutcome.ok, out) := by
  refine ⟨rfl, rfl, ?_⟩
  intro out hout
  simp [fixedRun, fixedWorker, GoResult.summaryLine] at hout

/-- C9 amended: in fixed-count mode with concurrency N the controller returns
success after receiving exactly N results when every request succeeded; if
the global 60-second timeout fires before all N arrive, the whole run fails
with the error reporting that bound; and a worker whose request errors still
sends its zero-value result, so the controller never waits forever for a
missing result — but it panics on the nil response while printing that
result, rather than returning success. -/
theorem c9_fixed_count_termination :
    (∀ ps : List (TraceTimes × ResponseMeta),
      fixedRun ps.length (ps.map fixedSuccessEvent) [] =
        some (RunOutcome.ok, ps.map fixedLineOf)) ∧
    (∀ (n : Nat) (ps : List (TraceTimes × ResponseMeta)) (rest : List FixedEvent),
      ps.length < n →
      fixedRun n (ps.map fixedSuccessEvent ++ (FixedEvent.timeout :: rest)) [] =
        some (RunOutcome.failed timeoutErrMsg, ps.map fixedLineOf)) ∧
    (∀ (n : Nat) (rest : List FixedEvent),
      fixedRun (n + 1) (FixedEvent.result (fixedWorker none) :: rest) [] =
        some (RunOutcome.panicked, [])) := by
  refine ⟨?_, ?_, ?_⟩
  · intro ps
    have h := fixedRun_success_shift ps 0 [] []
    simpa using h
  · intro n ps rest hlt
    obtain ⟨k, hk⟩ := Nat.exists_eq_add_of_lt hlt
    subst hk
    have h := fixedRun_success_shift ps (k + 1) (FixedEvent.timeout :: rest) []
    rw [Nat.add_assoc, h]
    simp [fixedRun]
  · intro n rest
    rfl

/-- Witness for c9_fixed_count_termination: one successful run of length 1, a
timeout firing with zero of two expected results, and an errored worker's
result arriving first. -/
theorem c9_fixed_count_termination_witness :
    fixedRun 1 ([(⟨0, 1, 2, 3, 10, 30, 4, 5, 0, 40⟩,
        (⟨"HTTP/2.0", "200 OK"⟩ : ResponseMeta))].map fixedSuccessEvent) [] =
      some (RunOutcome.ok,
        [(⟨0, 1, 2, 3, 10, 30, 4, 5, 0, 40⟩,
          (⟨"HTTP/2.0", "200 OK"⟩ : ResponseMeta))].map fixedLineOf) ∧
    fixedRun 2 [FixedEvent.timeout] [] =
      some (RunOutcome.failed timeoutErrMsg, []) ∧
    fixedRun 1 [FixedEvent.result (fixedWorker none)] [] =
      some (RunOutcome.panicked, []) := by
  have h := c9_fixed_count_termination
  exact ⟨h.1 [(⟨0, 1, 2, 3, 10, 30, 4, 5, 0, 40⟩, ⟨"HTTP/2.0", "200 OK"⟩)],
    h.2.1 2 [] [] (by decide), h.2.2 0 []⟩

end HttpPerftrace
